import Mathlib

/-!
Verification of the dongome marketplace event layer and user/listing domain.

The definitions below are a shallow embedding of the Go sources:
  * `pkg/events` (Event envelope, NATSEventBus.Publish / Subscribe, NewEvent,
    ParseEventData) — src/unnamed/part_001;
  * `internal/users/app` (UserService.RegisterUser / VerifyEmail /
    UpgradeToSeller) — src/unnamed/part_006;
  * `internal/users/domain` (User aggregate, domain events) —
    src/internal/users/domain/user.go;
  * `internal/listings/domain` (Listing aggregate) —
    src/internal/listings/domain/listing.go;
  * `pkg/errors` (DomainError and constructors).

Modelling conventions, used consistently throughout:
  * JSON documents are modelled by the inductive `Json` value tree; Go's
    `json.Marshal`/`json.Unmarshal` become structural encode/decode functions
    over it.  `time.Time` values are modelled as `Int` (wall-clock
    nanoseconds) and are encoded as JSON numbers.
  * `float64` fields (`Listing.Price`, `SellerProfile.Rating`,
    latitude/longitude) are modelled as `Rat`; the modelled operations only
    ever compare them with 0 or copy them, so no floating-point rounding is
    involved.
  * Calls into external collaborators (the GORM repository, bcrypt, uuid
    generation, the NATS client and broker, clocks) are passed in as explicit
    oracle arguments: the embedded function is the Go control flow over those
    outcomes.
  * Go `error` values are modelled by `GoError`; the repository's own
    `DomainError` is embedded structurally (its `Details` map is omitted: it
    is always empty on every modelled path).
-/

namespace Dongome

/-! ## JSON value model -/

/-- A JSON document, the model of serialized bytes handled by
`encoding/json`. -/
inductive Json where
  | null : Json
  | bool (b : Bool) : Json
  | num (n : Int) : Json
  | str (s : String) : Json
  | arr (elems : List Json) : Json
  | obj (fields : List (String × Json)) : Json

/-- Look up a field of a JSON object by key (first occurrence wins). -/
def Json.getField : List (String × Json) → String → Option Json
  | [], _ => none
  | (k, v) :: rest, key => if k = key then some v else Json.getField rest key

/-- Decode a struct field of Go type `string`: an absent JSON key leaves the
zero value `""`; a present key must hold a JSON string. -/
def decodeStrField (fields : List (String × Json)) (key : String) : Option String :=
  match Json.getField fields key with
  | none => some ""
  | some (Json.str s) => some s
  | some _ => none

/-- Decode a struct field of the modelled `time.Time`/numeric kind: an absent
JSON key leaves the zero value `0`; a present key must hold a JSON number. -/
def decodeNumField (fields : List (String × Json)) (key : String) : Option Int :=
  match Json.getField fields key with
  | none => some 0
  | some (Json.num n) => some n
  | some _ => none

/-- Decode the entries of a JSON object into a Go `map[string]string`:
every value must be a JSON string. -/
def decodeStrPairs : List (String × Json) → Option (List (String × String))
  | [] => some []
  | (k, Json.str v) :: rest => (decodeStrPairs rest).map (fun tl => (k, v) :: tl)
  | _ => none

/-- Decode a struct field of Go type `map[string]string`: an absent key or
JSON `null` leaves a nil map; a present object must have string values. -/
def decodeMetadataField (fields : List (String × Json)) (key : String) :
    Option (List (String × String)) :=
  match Json.getField fields key with
  | none => some []
  | some Json.null => some []
  | some (Json.obj mfs) => decodeStrPairs mfs
  | some _ => none

/-! ## Go errors -/

/-- `pkg/errors.DomainError` (code and message; the `Details` map is omitted:
it is `make(map[string]interface{})` — empty — on every modelled path). -/
structure DomainError where
  code : String
  message : String
deriving DecidableEq, Repr

/-- `errors.ValidationError` constructor. -/
def ValidationError (message : String) : DomainError :=
  { code := "VALIDATION_ERROR", message := message }

/-- `errors.NotFoundError` constructor. -/
def NotFoundError (message : String) : DomainError :=
  { code := "NOT_FOUND", message := message }

/-- `errors.ConflictError` constructor. -/
def ConflictError (message : String) : DomainError :=
  { code := "CONFLICT", message := message }

/-- A Go `error` value: either one of the repository's `DomainError`s or an
opaque error from an external collaborator (bcrypt, GORM, NATS, ...). -/
inductive GoError where
  | domain (e : DomainError)
  | other (msg : String)
deriving DecidableEq, Repr

/-! ## Event envelope (`pkg/events`, src/unnamed/part_001) -/

/-- `events.Event` — the domain-event envelope.  `Data json.RawMessage` is a
`Json` value (raw payload bytes, required to be well-formed JSON);
`Metadata map[string]string` is an association list; `Timestamp time.Time`
is modelled as nanoseconds. -/
structure Event where
  id : String
  type : String
  aggregateID : String
  data : Json
  metadata : List (String × String)
  timestamp : Int

/-- `json.Unmarshal(msg.Data, &event)` for the `Event` struct: the document
must be a JSON object; each present field must have the type of the
corresponding struct field (absent fields keep their zero values);
`data` accepts any JSON value (`json.RawMessage`). -/
def decodeEvent : Json → Option Event
  | Json.obj fields =>
    match decodeStrField fields "id", decodeStrField fields "type",
        decodeStrField fields "aggregate_id",
        decodeMetadataField fields "metadata", decodeNumField fields "timestamp" with
    | some id, some ty, some agg, some md, some ts =>
      some { id := id, type := ty, aggregateID := agg,
             data := (Json.getField fields "data").getD Json.null,
             metadata := md, timestamp := ts }
    | _, _, _, _, _ => none
  | _ => none

/-- `events.NewEvent(eventType, aggregateID, data)`: marshal the fact value
and wrap it in a fresh envelope.  `encode` is the `json.Marshal` of the fact
type (total for every fact struct of this repository, so the Go error return
is always nil); `genId` is the generated `uuid.New().String()` and `now` the
`time.Now()` reading. -/
def NewEvent {α : Type} (eventType aggregateID : String) (encode : α → Json)
    (d : α) (genId : String) (now : Int) : Event :=
  { id := genId, type := eventType, aggregateID := aggregateID,
    data := encode d, metadata := [], timestamp := now }

/-- `events.ParseEventData(event, &target)`: unmarshal the envelope payload
into the target fact type, whose `json.Unmarshal` is `decode`. -/
def ParseEventData {α : Type} (decode : Json → Option α) (event : Event) : Option α :=
  decode event.data

/-! ## User domain events (src/unnamed user events file) -/

/-- `domain.UserRegisteredEvent` type constant. -/
def UserRegisteredEvent : String := "user.registered"

/-- `domain.UserEmailVerifiedEvent` type constant. -/
def UserEmailVerifiedEvent : String := "user.email_verified"

/-- `domain.UserUpgradedToSellerEvent` type constant. -/
def UserUpgradedToSellerEvent : String := "user.upgraded_to_seller"

/-- `domain.UserRegistered` event payload (`Role UserRole` is a Go string
type, modelled as `String`). -/
structure UserRegistered where
  userID : String
  email : String
  firstName : String
  lastName : String
  role : String
  verificationToken : String
  timestamp : Int
deriving DecidableEq, Repr

/-- `json.Marshal` of `domain.UserRegistered` (field names from the struct's
json tags). -/
def encodeUserRegistered (d : UserRegistered) : Json :=
  Json.obj [("user_id", Json.str d.userID), ("email", Json.str d.email),
    ("first_name", Json.str d.firstName), ("last_name", Json.str d.lastName),
    ("role", Json.str d.role), ("verification_token", Json.str d.verificationToken),
    ("timestamp", Json.num d.timestamp)]

/-- `json.Unmarshal` into `domain.UserRegistered`. -/
def decodeUserRegistered : Json → Option UserRegistered
  | Json.obj fields =>
    match decodeStrField fields "user_id", decodeStrField fields "email",
        decodeStrField fields "first_name", decodeStrField fields "last_name",
        decodeStrField fields "role", decodeStrField fields "verification_token",
        decodeNumField fields "timestamp" with
    | some u, some e, some f, some l, some r, some v, some t =>
      some { userID := u, email := e, firstName := f, lastName := l,
             role := r, verificationToken := v, timestamp := t }
    | _, _, _, _, _, _, _ => none
  | _ => none

/-- `domain.UserEmailVerified` event payload. -/
structure UserEmailVerified where
  userID : String
  email : String
  timestamp : Int
deriving DecidableEq, Repr

/-- `json.Marshal` of `domain.UserEmailVerified`. -/
def encodeUserEmailVerified (d : UserEmailVerified) : Json :=
  Json.obj [("user_id", Json.str d.userID), ("email", Json.str d.email),
    ("timestamp", Json.num d.timestamp)]

/-- `json.Unmarshal` into `domain.UserEmailVerified`. -/
def decodeUserEmailVerified : Json → Option UserEmailVerified
  | Json.obj fields =>
    match decodeStrField fields "user_id", decodeStrField fields "email",
        decodeNumField fields "timestamp" with
    | some u, some e, some t => some { userID := u, email := e, timestamp := t }
    | _, _, _ => none
  | _ => none

/-- `domain.UserUpgradedToSeller` event payload. -/
structure UserUpgradedToSeller where
  userID : String
  email : String
  businessName : String
  timestamp : Int
deriving DecidableEq, Repr

/-- `json.Marshal` of `domain.UserUpgradedToSeller`. -/
def encodeUserUpgradedToSeller (d : UserUpgradedToSeller) : Json :=
  Json.obj [("user_id", Json.str d.userID), ("email", Json.str d.email),
    ("business_name", Json.str d.businessName), ("timestamp", Json.num d.timestamp)]

/-- `json.Unmarshal` into `domain.UserUpgradedToSeller`. -/
def decodeUserUpgradedToSeller : Json → Option UserUpgradedToSeller
  | Json.obj fields =>
    match decodeStrField fields "user_id", decodeStrField fields "email",
        decodeStrField fields "business_name", decodeNumField fields "timestamp" with
    | some u, some e, some b, some t =>
      some { userID := u, email := e, businessName := b, timestamp := t }
    | _, _, _, _ => none
  | _ => none

/-! ## User aggregate (src/internal/users/domain/user.go) -/

/-- `domain.UserStatusPending` (Go `UserStatus` is a string type). -/
def UserStatusPending : String := "pending"

/-- `domain.UserStatusActive`. -/
def UserStatusActive : String := "active"

/-- `domain.UserStatusSuspended`. -/
def UserStatusSuspended : String := "suspended"

/-- `domain.UserRoleBuyer` (Go `UserRole` is a string type). -/
def UserRoleBuyer : String := "buyer"

/-- `domain.UserRoleSeller`. -/
def UserRoleSeller : String := "seller"

/-- `domain.VerificationStatusPending` (Go `VerificationStatus` string type). -/
def VerificationStatusPending : String := "pending"

/-- `domain.SellerProfile` (`Rating float64` as `Rat`; timestamps as `Int`). -/
structure SellerProfile where
  id : String
  userID : String
  businessName : String
  businessAddress : String
  businessPhone : String
  businessEmail : String
  taxNumber : String
  verificationStatus : String
  verificationNotes : String
  rating : Rat
  totalReviews : Int
  createdAt : Int
  updatedAt : Int
deriving DecidableEq, Repr

/-- `domain.User` — the user aggregate root.  Note that the struct carries
no domain-event field of any kind: its fields are exactly the persisted
columns plus the `SellerProfile` association. -/
structure User where
  id : String
  email : String
  passwordHash : String
  firstName : String
  lastName : String
  phoneNumber : String
  avatar : String
  status : String
  role : String
  emailVerified : Bool
  phoneVerified : Bool
  verificationToken : String
  lastLoginAt : Option Int
  createdAt : Int
  updatedAt : Int
  sellerProfile : Option SellerProfile
deriving DecidableEq, Repr

/-- The ordered sequence of facts buffered on a `User` aggregate value.
The source `User` struct (src/internal/users/domain/user.go, lines 41-60)
declares no event list and no aggregate method appends events, so this
sequence is empty for every aggregate value.  (The in-repo patterns
document sketches `AddEvent`/`GetEvents`/`ClearEvents`, but the compiled
domain code does not implement them.) -/
def User.pendingEvents (_ : User) : List Event := []

/-- `domain.NewUser(email, password, firstName, lastName)`.  External
outcomes passed as oracles: `hashRes` is `bcrypt.GenerateFromPassword`
(hash string or error), `genToken` and `genId` are the two
`uuid.New().String()` calls, `now` is `time.Now()`. -/
def NewUser (email password firstName lastName : String)
    (hashRes : Except GoError String) (genToken genId : String) (now : Int) :
    Except GoError User :=
  if email = "" then Except.error (GoError.domain (ValidationError "email is required"))
  else if password = "" then Except.error (GoError.domain (ValidationError "password is required"))
  else if firstName = "" then Except.error (GoError.domain (ValidationError "first name is required"))
  else if lastName = "" then Except.error (GoError.domain (ValidationError "last name is required"))
  else
    match hashRes with
    | Except.error e => Except.error e
    | Except.ok hashedPassword =>
      Except.ok
        { id := genId, email := email, passwordHash := hashedPassword,
          firstName := firstName, lastName := lastName,
          phoneNumber := "", avatar := "",
          status := UserStatusPending, role := UserRoleBuyer,
          emailVerified := false, phoneVerified := false,
          verificationToken := genToken, lastLoginAt := none,
          createdAt := now, updatedAt := now, sellerProfile := none }

/-- `(*User).VerifyEmail()`: mark the email verified, activate the account,
clear the verification token. -/
def User.VerifyEmail (u : User) (now : Int) : User :=
  { u with emailVerified := true, status := UserStatusActive,
           verificationToken := "", updatedAt := now }

/-- `(*User).UpgradeToSeller(businessName, businessAddress)`.  The Go method
mutates its receiver and returns an error; the pair returned here is the
receiver's final value together with that error (`genProfileId` is the
`uuid.New().String()` for the new profile, `now` is `time.Now()`). -/
def User.UpgradeToSeller (u : User) (businessName businessAddress : String)
    (genProfileId : String) (now : Int) : User × Option DomainError :=
  if u.role = UserRoleSeller then
    (u, some (ValidationError "user is already a seller"))
  else if !u.emailVerified then
    (u, some (ValidationError "email must be verified to become a seller"))
  else
    ({ u with
        role := UserRoleSeller,
        sellerProfile := some
          { id := genProfileId, userID := u.id,
            businessName := businessName, businessAddress := businessAddress,
            businessPhone := "", businessEmail := "", taxNumber := "",
            verificationStatus := VerificationStatusPending,
            verificationNotes := "", rating := 0, totalReviews := 0,
            createdAt := now, updatedAt := now },
        updatedAt := now }, none)

/-! ## NATS event bus (`pkg/events`, src/unnamed/part_001) -/

namespace NATSEventBus

/-- The subject `Publish` writes to: `subject := "events." + event.Type`
(line 256). -/
def publishSubject (eventType : String) : String := "events." ++ eventType

/-- The subject `Subscribe` listens on: `subject := "events." + eventType`
(line 276). -/
def subscribeSubject (eventType : String) : String := "events." ++ eventType

/-- The durable consumer name `Subscribe` registers under:
`nats.Durable("dongome-" + eventType)` (line 307) — derived from the event
type only, never from the particular subscriber. -/
def durableName (eventType : String) : String := "dongome-" ++ eventType

/-- Result of `(*NATSEventBus).Publish`: the returned Go error, the envelope
as mutated by the call, and the NATS subject the write was addressed to. -/
structure PublishResult where
  err : Option GoError
  event : Event
  subject : String

/-- `(*NATSEventBus).Publish(ctx, event)`:
fill in `ID` (if empty) and `Timestamp` (if zero), serialize the envelope
(`json.Marshal` cannot fail here: `Data` is a well-formed JSON value), and
hand the bytes to `js.PublishAsync`.  `genId`/`now` are the uuid/clock
oracles; `publishAsyncErr` is the immediate client-side error of
`js.PublishAsync` (nil when the client accepts the message for async
sending); `brokerAccepts` is the broker's eventual accept/reject outcome,
which is reported on the `PubAckFuture` that the code discards (`_, err =`),
so it can never influence the returned error. -/
def Publish (genId : String) (now : Int) (publishAsyncErr : Option GoError)
    (brokerAccepts : Bool) (event : Event) : PublishResult :=
  let event := if event.id = "" then { event with id := genId } else event
  let event := if event.timestamp = 0 then { event with timestamp := now } else event
  match publishAsyncErr with
  | some e => { err := some e, event := event, subject := publishSubject event.type }
  | none => { err := none, event := event, subject := publishSubject event.type }

/-- Observable behavior of one `Subscribe` message callback (lines 278-306)
on a delivered message, for the terminal acknowledgment action taken. -/
inductive MsgAction where
  | ack : MsgAction
  | nak : MsgAction
  | pending : MsgAction
deriving DecidableEq, Repr

/-- How one handler invocation behaves: it either never returns, or returns
after `elapsedNs` nanoseconds with a nil or non-nil error. -/
inductive HandlerBehavior where
  | diverges : HandlerBehavior
  | returns (elapsedNs : Int) (result : Option GoError) : HandlerBehavior
deriving DecidableEq, Repr

/-- The processing timeout the callback installs on the handler's context:
`context.WithTimeout(context.Background(), 30*time.Second)` (line 290),
in nanoseconds. -/
def processingTimeoutNs : Int := 30 * 1000000000

/-- The `Subscribe` message callback (lines 278-306): unmarshal the message
bytes into an `Event` — on failure `msg.Nak()` and return; otherwise invoke
the handler with the timeout context and `msg.Nak()` on a non-nil error,
`msg.Ack()` on a nil error.  The elapsed time of the handler is never
compared against the timeout: the context deadline only cancels the context
handed to the handler.  A handler that never returns leaves the message
without any terminal action (`pending`). -/
def subscribeCallback (msgData : Json) (h : HandlerBehavior) : MsgAction :=
  match decodeEvent msgData with
  | none => MsgAction.nak
  | some _ =>
    match h with
    | HandlerBehavior.diverges => MsgAction.pending
    | HandlerBehavior.returns _ (some _) => MsgAction.nak
    | HandlerBehavior.returns _ none => MsgAction.ack

/-- Broker-side consequence of the callback's terminal action, per the
JetStream consumer contract (the broker is an external collaborator):
`Nak` asks for immediate redelivery; a message never acknowledged is
redelivered after the ack-wait interval; only `Ack` stops redelivery. -/
def redelivered (a : MsgAction) : Bool :=
  match a with
  | MsgAction.ack => false
  | MsgAction.nak => true
  | MsgAction.pending => true

/-- One durable-consumer registration held by the JetStream broker for the
`DOMAIN_EVENTS` stream: the subject subscribed to, the durable consumer
name, and an identifier for the Go handler closure. -/
structure Subscription where
  subject : String
  durable : String
  handlerId : Nat
deriving DecidableEq, Repr

/-- `(*NATSEventBus).Subscribe(eventType, handler)` as its effect on the
broker's registration table: register `handler` on subject
`events.<eventType>` under durable name `dongome-<eventType>`. -/
def Subscribe (regs : List Subscription) (eventType : String) (handlerId : Nat) :
    List Subscription :=
  regs ++ [{ subject := subscribeSubject eventType,
             durable := durableName eventType, handlerId := handlerId }]

/-- Auxiliary fold for `deliverTo`: one delivery per distinct durable name,
to the earliest registration under that durable. -/
def deliverToAux : List Subscription → List String → List Nat
  | [], _ => []
  | r :: rest, seen =>
    if r.durable ∈ seen then deliverToAux rest seen
    else r.handlerId :: deliverToAux rest (r.durable :: seen)

/-- JetStream delivery of one envelope published on `topic`, per the durable
consumer contract (external collaborator, as described by the design spec):
every distinct durable name registered on the topic receives its own copy
of the envelope; registrations sharing one durable name compete for the
copy, resolved here to the earliest such registration. -/
def deliverTo (regs : List Subscription) (topic : String) : List Nat :=
  deliverToAux (regs.filter (fun r => r.subject = topic)) []

end NATSEventBus

/-! ## Listing aggregate (src/internal/listings/domain/listing.go) -/

/-- `domain.ListingStatusDraft` (Go `ListingStatus` is a string type). -/
def ListingStatusDraft : String := "draft"

/-- `domain.ListingStatusActive`. -/
def ListingStatusActive : String := "active"

/-- `domain.ListingStatusInactive`. -/
def ListingStatusInactive : String := "inactive"

/-- `domain.ListingStatusSold`. -/
def ListingStatusSold : String := "sold"

/-- `domain.Category` — category tree node (recursive through the optional
parent and the children list). -/
inductive Category where
  | mk (id name description : String) (parentID : Option String)
      (parent : Option Category) (children : List Category)
      (imageURL : String) (isActive : Bool) (createdAt updatedAt : Int) : Category

/-- The Go zero value `Category{}`, held by a freshly constructed Listing's
(unloaded) `Category` association. -/
def Category.zero : Category := Category.mk "" "" "" none none [] "" false 0 0

/-- `domain.Location` (latitude/longitude `float64` as `Rat`). -/
structure Location where
  region : String
  city : String
  area : String
  latitude : Rat
  longitude : Rat
deriving DecidableEq, Repr

/-- `domain.ListingImage`. -/
structure ListingImage where
  id : String
  listingID : String
  url : String
  caption : String
  order : Int
  createdAt : Int
deriving DecidableEq, Repr

/-- `domain.ListingAttribute`. -/
structure ListingAttribute where
  id : String
  listingID : String
  key : String
  value : String
  createdAt : Int
deriving DecidableEq, Repr

/-- `domain.ListingTag`. -/
structure ListingTag where
  id : String
  name : String
  color : String
  createdAt : Int
deriving DecidableEq, Repr

/-- `domain.Listing` — the marketplace listing aggregate root
(`Price float64` as `Rat`; the `ViewsCount`/`FavoritesCount` Go `int`
counters as `Int`: both only ever move by one step from 0, so 64-bit
wraparound is unreachable and not modelled). -/
structure Listing where
  id : String
  sellerID : String
  categoryID : String
  category : Category
  title : String
  description : String
  price : Rat
  currency : String
  condition : String
  status : String
  location : Location
  images : List ListingImage
  attributes : List ListingAttribute
  tags : List ListingTag
  viewsCount : Int
  favoritesCount : Int
  isNegotiable : Bool
  isPromoted : Bool
  promotedUntil : Option Int
  expiresAt : Int
  createdAt : Int
  updatedAt : Int

/-- Thirty days in nanoseconds: the distance of
`time.Now().AddDate(0, 0, 30)` from `time.Now()` (calendar arithmetic,
30 × 24h on every path without a daylight-saving shift; the exact offset is
irrelevant to the verified claims). -/
def thirtyDaysNs : Int := 30 * 86400 * 1000000000

/-- `domain.NewListing(sellerID, categoryID, title, description, price,
condition, location)` — validate, then construct a draft listing
(`genId` is `uuid.New().String()`, `now` is `time.Now()`). -/
def NewListing (sellerID categoryID title description : String) (price : Rat)
    (condition : String) (location : Location) (genId : String) (now : Int) :
    Except DomainError Listing :=
  if sellerID = "" then Except.error (ValidationError "seller ID is required")
  else if categoryID = "" then Except.error (ValidationError "category ID is required")
  else if title = "" then Except.error (ValidationError "title is required")
  else if price ≤ 0 then Except.error (ValidationError "price must be greater than 0")
  else
    Except.ok
      { id := genId, sellerID := sellerID, categoryID := categoryID,
        category := Category.zero, title := title, description := description,
        price := price, currency := "GHS", condition := condition,
        status := ListingStatusDraft, location := location,
        images := [], attributes := [], tags := [],
        viewsCount := 0, favoritesCount := 0,
        isNegotiable := true, isPromoted := false, promotedUntil := none,
        expiresAt := now + thirtyDaysNs, createdAt := now, updatedAt := now }

/-- `(*Listing).Activate()`. -/
def Listing.Activate (l : Listing) (now : Int) : Except DomainError Listing :=
  if l.status = ListingStatusSold then
    Except.error (ValidationError "cannot activate sold listing")
  else
    Except.ok { l with status := ListingStatusActive, updatedAt := now }

/-- `(*Listing).Deactivate()`. -/
def Listing.Deactivate (l : Listing) (now : Int) : Listing :=
  { l with status := ListingStatusInactive, updatedAt := now }

/-- `(*Listing).MarkAsSold()`. -/
def Listing.MarkAsSold (l : Listing) (now : Int) : Listing :=
  { l with status := ListingStatusSold, updatedAt := now }

/-- `(*Listing).IncrementViews()`. -/
def Listing.IncrementViews (l : Listing) (now : Int) : Listing :=
  { l with viewsCount := l.viewsCount + 1, updatedAt := now }

/-- `(*Listing).IncrementFavorites()`. -/
def Listing.IncrementFavorites (l : Listing) (now : Int) : Listing :=
  { l with favoritesCount := l.favoritesCount + 1, updatedAt := now }

/-- `(*Listing).DecrementFavorites()`: decrement only when the counter is
strictly positive, otherwise leave the listing untouched. -/
def Listing.DecrementFavorites (l : Listing) (now : Int) : Listing :=
  if l.favoritesCount > 0 then
    { l with favoritesCount := l.favoritesCount - 1, updatedAt := now }
  else l

/-- `(*Listing).AddImage(url, caption)`. -/
def Listing.AddImage (l : Listing) (url caption : String) (genId : String) (now : Int) :
    Listing :=
  { l with
      images := l.images ++
        [{ id := genId, listingID := l.id, url := url, caption := caption,
           order := Int.ofNat l.images.length, createdAt := now }],
      updatedAt := now }

/-- `(*Listing).AddAttribute(key, value)`. -/
def Listing.AddAttribute (l : Listing) (key value : String) (genId : String) (now : Int) :
    Listing :=
  { l with
      attributes := l.attributes ++
        [{ id := genId, listingID := l.id, key := key, value := value,
           createdAt := now }],
      updatedAt := now }

/-- `(*Listing).Promote(duration)`. -/
def Listing.Promote (l : Listing) (durationNs : Int) (now : Int) : Listing :=
  { l with isPromoted := true, promotedUntil := some (now + durationNs),
           updatedAt := now }

/-! ## User application service (`internal/users/app`, src/unnamed/part_006) -/

/-- `app.RegisterUserCommand`. -/
structure RegisterUserCommand where
  email : String
  password : String
  firstName : String
  lastName : String
deriving DecidableEq, Repr

/-- `app.UpgradeToSellerCommand`. -/
structure UpgradeToSellerCommand where
  userID : String
  businessName : String
  businessAddress : String
deriving DecidableEq, Repr

namespace UserService

/-- `(*UserService).RegisterUser(ctx, cmd)`.  Oracle arguments, in call
order: `findByEmail` is the user returned by `userRepo.FindByEmail`
(its error is discarded by the code); `hashRes`, `genToken`, `genId`, `now`
feed `domain.NewUser`; `saveErr` is the outcome of `userRepo.Save`;
`genEventId` feeds `events.NewEvent`; `publishErr` is the outcome of
`eventBus.Publish`.  Returns the call result together with the list of
envelopes handed to `eventBus.Publish` (publish failures are deliberately
swallowed: the comment at the publish site reads "Log error but don't fail
the operation"). -/
def RegisterUser (findByEmail : Option User) (hashRes : Except GoError String)
    (genToken genId genEventId : String) (now : Int)
    (saveErr : Option GoError) (publishErr : Option GoError)
    (cmd : RegisterUserCommand) : Except GoError User × List Event :=
  match findByEmail with
  | some _ =>
    (Except.error (GoError.domain (ConflictError "user with this email already exists")), [])
  | none =>
    match NewUser cmd.email cmd.password cmd.firstName cmd.lastName hashRes genToken genId now with
    | Except.error e => (Except.error e, [])
    | Except.ok user =>
      match saveErr with
      | some e => (Except.error e, [])
      | none =>
        let event := NewEvent UserRegisteredEvent user.id encodeUserRegistered
          { userID := user.id, email := user.email, firstName := user.firstName,
            lastName := user.lastName, role := user.role,
            verificationToken := user.verificationToken, timestamp := now }
          genEventId now
        match publishErr with
        | some _ => (Except.ok user, [event])
        | none => (Except.ok user, [event])

/-- `(*UserService).VerifyEmail(ctx, token)`.  `findByToken` is the outcome
of `userRepo.FindByVerificationToken`; `updateErr` of `userRepo.Update`;
`publishErr` of `eventBus.Publish`.  The final statement of the Go function
is `return s.eventBus.Publish(ctx, event)`: a publish failure becomes the
call's result even though the aggregate was already persisted. -/
def VerifyEmail (findByToken : Except GoError User) (now : Int)
    (genEventId : String) (updateErr : Option GoError) (publishErr : Option GoError)
    (_token : String) : Except GoError Unit × List Event :=
  match findByToken with
  | Except.error _ =>
    (Except.error (GoError.domain (NotFoundError "invalid verification token")), [])
  | Except.ok user =>
    let user := user.VerifyEmail now
    match updateErr with
    | some e => (Except.error e, [])
    | none =>
      let event := NewEvent UserEmailVerifiedEvent user.id encodeUserEmailVerified
        { userID := user.id, email := user.email, timestamp := now } genEventId now
      match publishErr with
      | some e => (Except.error e, [event])
      | none => (Except.ok (), [event])

/-- `(*UserService).UpgradeToSeller(ctx, cmd)`.  `findByID` is the outcome
of `userRepo.FindByID`; `genProfileId`/`now` feed the domain method;
`updateErr` is the outcome of `userRepo.Update`; `genEventId` feeds
`events.NewEvent`; `publishErr` is the outcome of `eventBus.Publish`.  The
final statement of the Go function is `return s.eventBus.Publish(ctx,
event)`: a publish failure becomes the call's result even though the
aggregate was already persisted. -/
def UpgradeToSeller (findByID : Except GoError User)
    (genProfileId genEventId : String) (now : Int)
    (updateErr : Option GoError) (publishErr : Option GoError)
    (cmd : UpgradeToSellerCommand) : Except GoError Unit × List Event :=
  match findByID with
  | Except.error _ =>
    (Except.error (GoError.domain (NotFoundError "user not found")), [])
  | Except.ok user =>
    match user.UpgradeToSeller cmd.businessName cmd.businessAddress genProfileId now with
    | (_, some e) => (Except.error (GoError.domain e), [])
    | (user, none) =>
      match updateErr with
      | some e => (Except.error e, [])
      | none =>
        let event := NewEvent UserUpgradedToSellerEvent user.id encodeUserUpgradedToSeller
          { userID := user.id, email := user.email,
            businessName := cmd.businessName, timestamp := now } genEventId now
        match publishErr with
        | some e => (Except.error e, [event])
        | none => (Except.ok (), [event])

end UserService

/-! ## Concrete sample values used by witnesses and counterexamples -/

/-- A user whose email has been verified (status active, still a buyer). -/
def verifiedUser : User :=
  { id := "u1", email := "jane@example.com", passwordHash := "hash1",
    firstName := "Jane", lastName := "Doe", phoneNumber := "", avatar := "",
    status := UserStatusActive, role := UserRoleBuyer,
    emailVerified := true, phoneVerified := false, verificationToken := "",
    lastLoginAt := none, createdAt := 0, updatedAt := 0, sellerProfile := none }

/-- A user who is already a seller. -/
def sellerUser : User :=
  { verifiedUser with id := "u2", email := "sel@example.com", role := UserRoleSeller }

/-- The value `domain.NewUser("a@b.c", "password", "J", "D")` produces with
hash `"hash"`, verification token `"tok"`, id `"uid"` and clock `3`. -/
def regUser : User :=
  { id := "uid", email := "a@b.c", passwordHash := "hash",
    firstName := "J", lastName := "D", phoneNumber := "", avatar := "",
    status := UserStatusPending, role := UserRoleBuyer,
    emailVerified := false, phoneVerified := false, verificationToken := "tok",
    lastLoginAt := none, createdAt := 3, updatedAt := 3, sellerProfile := none }

/-- The register command matching `regUser`. -/
def cmdR : RegisterUserCommand :=
  { email := "a@b.c", password := "password", firstName := "J", lastName := "D" }

/-- The value `verifiedUser.UpgradeToSeller("Biz", "Addr")` produces with
profile id `"p1"` and clock `4`. -/
def upgradedUser : User :=
  { verifiedUser with
      role := UserRoleSeller,
      sellerProfile := some
        { id := "p1", userID := "u1", businessName := "Biz",
          businessAddress := "Addr", businessPhone := "", businessEmail := "",
          taxNumber := "", verificationStatus := VerificationStatusPending,
          verificationNotes := "", rating := 0, totalReviews := 0,
          createdAt := 4, updatedAt := 4 },
      updatedAt := 4 }

/-- A well-formed envelope (also the decoding of `cMsgData`). -/
def cEvent : Event :=
  { id := "evt-1", type := "user.registered", aggregateID := "u1",
    data := Json.null, metadata := [], timestamp := 5 }

/-- Wire bytes of a well-formed envelope, as delivered to the Subscribe
callback. -/
def cMsgData : Json :=
  Json.obj [("id", Json.str "evt-1"), ("type", Json.str "user.registered"),
    ("aggregate_id", Json.str "u1"), ("data", Json.null),
    ("metadata", Json.null), ("timestamp", Json.num 5)]

/-- A draft listing with zero counters (as `NewListing` would produce with
id `"l1"` and clock `0`). -/
def sampleListing : Listing :=
  { id := "l1", sellerID := "s1", categoryID := "c1", category := Category.zero,
    title := "Bike", description := "", price := 1, currency := "GHS",
    condition := "good", status := ListingStatusDraft,
    location := { region := "GA", city := "Accra", area := "", latitude := 0, longitude := 0 },
    images := [], attributes := [], tags := [], viewsCount := 0,
    favoritesCount := 0, isNegotiable := true, isPromoted := false,
    promotedUntil := none, expiresAt := thirtyDaysNs, createdAt := 0, updatedAt := 0 }

/-! ## C7 — deterministic topic derivation -/

/-- C7: the topic used by `Publish` for an envelope is exactly
`"events." ++ type`, and a `Subscribe` call for the same type registers on
that identical subject, so any two publishes — or a publish and a
subscribe — with equal types use the identical topic. -/
theorem events_topic_deterministic :
    ∀ (g : String) (n : Int) (a : Option GoError) (b : Bool) (e : Event)
      (regs : List NATSEventBus.Subscription) (hid : Nat),
      (NATSEventBus.Publish g n a b e).subject = "events." ++ e.type
      ∧ (NATSEventBus.Subscribe regs e.type hid).map NATSEventBus.Subscription.subject
          = regs.map NATSEventBus.Subscription.subject ++ ["events." ++ e.type] := by
  intro g n a b e regs hid
  constructor
  · cases a <;>
      simp [NATSEventBus.Publish, NATSEventBus.publishSubject, apply_ite Event.type]
  · simp [NATSEventBus.Subscribe, NATSEventBus.subscribeSubject]

/-! ## C8 — envelope payload round-trip -/

/-- C8: for every fact value of the user-context fact types, building an
event with `NewEvent` and decoding its `Data` field with `ParseEventData`
into the fact's type recovers the original value. -/
theorem parseEventData_newEvent_roundtrip :
    (∀ (d : UserRegistered) (t a g : String) (n : Int),
      ParseEventData decodeUserRegistered (NewEvent t a encodeUserRegistered d g n) = some d)
    ∧ (∀ (d : UserEmailVerified) (t a g : String) (n : Int),
      ParseEventData decodeUserEmailVerified (NewEvent t a encodeUserEmailVerified d g n) = some d)
    ∧ (∀ (d : UserUpgradedToSeller) (t a g : String) (n : Int),
      ParseEventData decodeUserUpgradedToSeller (NewEvent t a encodeUserUpgradedToSeller d g n) = some d) :=
  ⟨fun _ _ _ _ _ => rfl, fun _ _ _ _ _ => rfl, fun _ _ _ _ _ => rfl⟩

/-! ## C9 — UpgradeToSeller is atomic with respect to its precondition
checks -/

/-- C9: whenever the domain method `User.UpgradeToSeller` reports an error
(already a seller, or email not verified), the user value is completely
unchanged — every field keeps its prior value. -/
theorem upgradeToSeller_error_leaves_user_unchanged :
    ∀ (u : User) (bn ba pid : String) (now : Int),
      (u.UpgradeToSeller bn ba pid now).2.isSome = true →
      (u.UpgradeToSeller bn ba pid now).1 = u := by
  intro u bn ba pid now h
  by_cases h1 : u.role = UserRoleSeller
  · simp [User.UpgradeToSeller, h1]
  · by_cases h2 : u.emailVerified
    · exfalso
      simp [User.UpgradeToSeller, h1, h2] at h
    · simp [User.UpgradeToSeller, h1, h2]

/-- Witness for C9: upgrading a user who is already a seller errors and
leaves the value unchanged. -/
theorem upgradeToSeller_error_leaves_user_unchanged_witness :
    (sellerUser.UpgradeToSeller "B" "A" "p9" 5).2.isSome = true
    ∧ (sellerUser.UpgradeToSeller "B" "A" "p9" 5).1 = sellerUser :=
  ⟨rfl, upgradeToSeller_error_leaves_user_unchanged sellerUser "B" "A" "p9" 5 rfl⟩

/-! ## C10 — FavoritesCount never negative -/

/-- C10: `NewListing` starts `FavoritesCount` at 0, and every Listing
operation preserves `0 ≤ FavoritesCount`; in particular
`DecrementFavorites` never drives the counter below zero, however often it
is called. -/
theorem listing_favoritesCount_nonneg_invariant :
    (∀ (sid cid t d : String) (p : Rat) (c : String) (loc : Location)
      (g : String) (n : Int) (l : Listing),
      NewListing sid cid t d p c loc g n = Except.ok l → 0 ≤ l.favoritesCount)
    ∧ (∀ (l : Listing) (now : Int) (l' : Listing),
      l.Activate now = Except.ok l' → 0 ≤ l.favoritesCount → 0 ≤ l'.favoritesCount)
    ∧ (∀ (l : Listing) (now : Int),
      0 ≤ l.favoritesCount → 0 ≤ (l.Deactivate now).favoritesCount)
    ∧ (∀ (l : Listing) (now : Int),
      0 ≤ l.favoritesCount → 0 ≤ (l.MarkAsSold now).favoritesCount)
    ∧ (∀ (l : Listing) (now : Int),
      0 ≤ l.favoritesCount → 0 ≤ (l.IncrementViews now).favoritesCount)
    ∧ (∀ (l : Listing) (now : Int),
      0 ≤ l.favoritesCount → 0 ≤ (l.IncrementFavorites now).favoritesCount)
    ∧ (∀ (l : Listing) (now : Int),
      0 ≤ l.favoritesCount → 0 ≤ (l.DecrementFavorites now).favoritesCount)
    ∧ (∀ (l : Listing) (u c g : String) (now : Int),
      0 ≤ l.favoritesCount → 0 ≤ (l.AddImage u c g now).favoritesCount)
    ∧ (∀ (l : Listing) (k v g : String) (now : Int),
      0 ≤ l.favoritesCount → 0 ≤ (l.AddAttribute k v g now).favoritesCount)
    ∧ (∀ (l : Listing) (dur now : Int),
      0 ≤ l.favoritesCount → 0 ≤ (l.Promote dur now).favoritesCount) := by
  refine ⟨?_, ?_, ?_, ?_, ?_, ?_, ?_, ?_, ?_, ?_⟩
  · intro sid cid t d p c loc g n l h
    simp only [NewListing] at h
    repeat' split at h
    any_goals simp_all
    cases h
    simp
  · intro l now l' h hl
    simp only [Listing.Activate] at h
    split at h
    · simp_all
    · cases h
      simpa using hl
  · intro l now hl; simpa [Listing.Deactivate] using hl
  · intro l now hl; simpa [Listing.MarkAsSold] using hl
  · intro l now hl; simpa [Listing.IncrementViews] using hl
  · intro l now hl
    simp [Listing.IncrementFavorites]
    omega
  · intro l now hl
    by_cases hpos : l.favoritesCount > 0
    · simp [Listing.DecrementFavorites, hpos]
      omega
    · simp [Listing.DecrementFavorites, hpos]
      omega
  · intro l u c g now hl; simpa [Listing.AddImage] using hl
  · intro l k v g now hl; simpa [Listing.AddAttribute] using hl
  · intro l dur now hl; simpa [Listing.Promote] using hl

/-- Witness for C10: decrementing a listing whose counter is already 0
(decrement called more often than increment) keeps the counter
non-negative. -/
theorem listing_favoritesCount_nonneg_invariant_witness :
    0 ≤ sampleListing.favoritesCount
    ∧ 0 ≤ (sampleListing.DecrementFavorites 7).favoritesCount
    ∧ 0 ≤ ((sampleListing.DecrementFavorites 7).DecrementFavorites 8).favoritesCount := by
  have h1 : (0 : Int) ≤ sampleListing.favoritesCount := le_refl 0
  have h2 := listing_favoritesCount_nonneg_invariant.2.2.2.2.2.2.1 sampleListing 7 h1
  have h3 := listing_favoritesCount_nonneg_invariant.2.2.2.2.2.2.1
    (sampleListing.DecrementFavorites 7) 8 h2
  exact ⟨h1, h2, h3⟩

/-! ## C1 — publish-failure policy per business operation -/

/-- Counterexample for C1: in `VerifyEmail` the user is found by token and
`userRepo.Update` succeeds (the aggregate's new state is persisted:
`updateErr = none`), yet a failing publish makes the whole operation return
that publish error to the caller — the claim that every business operation
swallows publish failures is false. -/
theorem verifyEmail_publish_failure_fails_operation_cex :
    (UserService.VerifyEmail (Except.ok verifiedUser) 10 "ev1" none
        (some (GoError.other "nats: connection closed")) "tok").1
      = Except.error (GoError.other "nats: connection closed") := rfl

/-- C1 (amended): after the aggregate's state has been successfully
persisted, a publish failure is swallowed by `RegisterUser` (the operation
still returns the registered user), but `VerifyEmail` and `UpgradeToSeller`
end with `return s.eventBus.Publish(ctx, event)` and therefore report the
publish error to the caller. -/
theorem publish_failure_policy_per_operation :
    (∀ (hashRes : Except GoError String) (gt gi ge : String) (now : Int)
      (pe : GoError) (cmd : RegisterUserCommand) (user : User),
      NewUser cmd.email cmd.password cmd.firstName cmd.lastName hashRes gt gi now
          = Except.ok user →
      (UserService.RegisterUser none hashRes gt gi ge now none (some pe) cmd).1
          = Except.ok user)
    ∧ (∀ (u : User) (now : Int) (ge : String) (pe : GoError) (tok : String),
      (UserService.VerifyEmail (Except.ok u) now ge none (some pe) tok).1
          = Except.error pe)
    ∧ (∀ (u : User) (gp ge : String) (now : Int) (pe : GoError)
      (cmd : UpgradeToSellerCommand) (user' : User),
      u.UpgradeToSeller cmd.businessName cmd.businessAddress gp now = (user', none) →
      (UserService.UpgradeToSeller (Except.ok u) gp ge now none (some pe) cmd).1
          = Except.error pe) := by
  refine ⟨?_, ?_, ?_⟩
  · intro hashRes gt gi ge now pe cmd user h
    simp [UserService.RegisterUser, h]
  · intro u now ge pe tok
    simp [UserService.VerifyEmail]
  · intro u gp ge now pe cmd user' h
    simp [UserService.UpgradeToSeller, h]

/-- Witness for C1: concrete registration whose publish fails but which
still succeeds, and a concrete seller upgrade whose publish failure is
returned to the caller. -/
theorem publish_failure_policy_per_operation_witness :
    (UserService.RegisterUser none (Except.ok "hash") "tok" "uid" "eid" 3 none
        (some (GoError.other "nats down")) cmdR).1 = Except.ok regUser
    ∧ (UserService.UpgradeToSeller (Except.ok verifiedUser) "p1" "eid" 4 none
        (some (GoError.other "nats down"))
        { userID := "u1", businessName := "Biz", businessAddress := "Addr" }).1
      = Except.error (GoError.other "nats down") :=
  ⟨publish_failure_policy_per_operation.1 (Except.ok "hash") "tok" "uid" "eid" 3
      (GoError.other "nats down") cmdR regUser rfl,
   publish_failure_policy_per_operation.2.2 verifiedUser "p1" "eid" 4
      (GoError.other "nats down")
      { userID := "u1", businessName := "Biz", businessAddress := "Addr" }
      upgradedUser rfl⟩

/-! ## C3 — the aggregate pending-event buffer -/

/-- Counterexample for C3: the registered aggregate `U1` — produced by
`domain.NewUser` on the user-registration path — carries zero buffered
facts, not "exactly one fact (user.registered) before the flush": the
source `User` struct has no pending-event buffer at all and no business
method appends facts anywhere. -/
theorem registration_pending_buffer_cex :
    NewUser "a@b.c" "password" "J" "D" (Except.ok "hash") "tok" "uid" 3
      = Except.ok regUser
    ∧ regUser.pendingEvents.length = 0 := ⟨rfl, rfl⟩

/-- C3 (amended): aggregates hold no pending-event buffer (the buffered
sequence of every `User` value is empty); instead, the user-registration
operation itself constructs the single `user.registered` envelope after
persisting and hands exactly that one envelope to the publisher, and the
operation succeeds regardless of the publish outcome. -/
theorem aggregate_bufferless_register_publishes_one :
    (∀ u : User, u.pendingEvents = [])
    ∧ (∀ (hashRes : Except GoError String) (gt gi ge : String) (now : Int)
      (pubErr : Option GoError) (cmd : RegisterUserCommand) (user : User),
      NewUser cmd.email cmd.password cmd.firstName cmd.lastName hashRes gt gi now
          = Except.ok user →
      (UserService.RegisterUser none hashRes gt gi ge now none pubErr cmd).2.map Event.type
          = [UserRegisteredEvent]
      ∧ (UserService.RegisterUser none hashRes gt gi ge now none pubErr cmd).1
          = Except.ok user) := by
  refine ⟨fun _ => rfl, ?_⟩
  intro hashRes gt gi ge now pubErr cmd user h
  cases pubErr <;> simp [UserService.RegisterUser, h, NewEvent]

/-- Witness for C3: the concrete registration attempts exactly one
`user.registered` publish and succeeds even though that publish fails. -/
theorem aggregate_bufferless_register_publishes_one_witness :
    (UserService.RegisterUser none (Except.ok "hash") "tok" "uid" "eid" 3 none
        (some (GoError.other "down")) cmdR).2.map Event.type = [UserRegisteredEvent]
    ∧ (UserService.RegisterUser none (Except.ok "hash") "tok" "uid" "eid" 3 none
        (some (GoError.other "down")) cmdR).1 = Except.ok regUser :=
  aggregate_bufferless_register_publishes_one.2 (Except.ok "hash") "tok" "uid" "eid" 3
    (some (GoError.other "down")) cmdR regUser rfl

/-! ## C2 — fan-out of independent subscriptions on one topic -/

/-- The subscription table after the event-flow demo registers its
notifications handler (0) and its analytics handler (1), both on
`user.registered` (src/examples/event_flow_demo.go, setupEventSubscribers). -/
def demoRegs : List NATSEventBus.Subscription :=
  NATSEventBus.Subscribe (NATSEventBus.Subscribe [] "user.registered" 0)
    "user.registered" 1

/-- C2, evaluated at the failing input: both independent `Subscribe` calls
for `user.registered` register under the single durable name
`dongome-user.registered` (the durable name depends only on the event
type), so under the durable-consumer contract the two handlers compete for
each envelope — the analytics handler (1) receives no copy of an envelope
published on the topic, refuting the claimed fan-out of independent
subscriptions. -/
theorem subscribe_same_topic_shares_durable_no_fanout :
    NATSEventBus.durableName "user.registered" = "dongome-user.registered"
    ∧ demoRegs.map NATSEventBus.Subscription.durable
        = ["dongome-user.registered", "dongome-user.registered"]
    ∧ NATSEventBus.deliverTo demoRegs "events.user.registered" = [0]
    ∧ 1 ∉ NATSEventBus.deliverTo demoRegs "events.user.registered" :=
  ⟨rfl, rfl, rfl, by decide⟩

/-! ## C4 — publish waits for broker acceptance -/

/-- Counterexample for C4: the broker rejects the write
(`brokerAccepts = false`), yet `Publish` still returns success — the
rejection travels on the `PubAckFuture` that the code discards, so no
delivery error is surfaced to the caller. -/
theorem publish_success_despite_broker_reject_cex :
    (NATSEventBus.Publish "gid" 9 none false cEvent).err = none := rfl

/-- C4 (amended): `Publish` returns success exactly when `js.PublishAsync`
accepts the message on the client side; the broker's eventual
accept/reject outcome never influences the returned error (the ack future
is discarded), so only immediate client-side failures are surfaced. -/
theorem publish_outcome_is_clientside_only :
    ∀ (g : String) (n : Int) (a : Option GoError) (b b' : Bool) (e : Event),
      (NATSEventBus.Publish g n a b e).err = a
      ∧ NATSEventBus.Publish g n a b e = NATSEventBus.Publish g n a b' e := by
  intro g n a b b' e
  cases a <;> exact ⟨rfl, rfl⟩

/-! ## C5 — timeout and acknowledgment -/

/-- Counterexample for C5: a handler that returns success only after 40
seconds — well beyond the 30-second processing timeout, so it did not
return within the timeout — is still acknowledged by the callback, and an
acknowledged envelope is not redelivered; the claimed
"no ack unless the handler returns successfully within the timeout" is
false. -/
theorem late_success_still_acked_cex :
    NATSEventBus.processingTimeoutNs < 40 * 1000000000
    ∧ NATSEventBus.subscribeCallback cMsgData
        (NATSEventBus.HandlerBehavior.returns (40 * 1000000000) none)
      = NATSEventBus.MsgAction.ack
    ∧ NATSEventBus.redelivered NATSEventBus.MsgAction.ack = false :=
  ⟨by norm_num [NATSEventBus.processingTimeoutNs], rfl, rfl⟩

/-- C5 (amended): the callback's acknowledgment depends only on the
handler's return value, never on its elapsed time: it acks exactly when the
payload decodes and the handler returns a nil error (at whatever time); a
handler that never returns leaves the message pending (hence redelivered,
not silently dropped); and redelivery stops exactly on ack. -/
theorem subscribe_ack_policy :
    ∀ (data : Json) (h : NATSEventBus.HandlerBehavior),
      (NATSEventBus.subscribeCallback data h = NATSEventBus.MsgAction.ack ↔
        (decodeEvent data).isSome = true
        ∧ ∃ t, h = NATSEventBus.HandlerBehavior.returns t none)
      ∧ (NATSEventBus.subscribeCallback data h = NATSEventBus.MsgAction.pending ↔
        (decodeEvent data).isSome = true ∧ h = NATSEventBus.HandlerBehavior.diverges)
      ∧ (NATSEventBus.redelivered (NATSEventBus.subscribeCallback data h) = false ↔
        NATSEventBus.subscribeCallback data h = NATSEventBus.MsgAction.ack) := by
  intro data h
  cases hd : decodeEvent data with
  | none =>
    simp [NATSEventBus.subscribeCallback, hd, NATSEventBus.redelivered]
  | some ev =>
    cases h with
    | diverges =>
      simp [NATSEventBus.subscribeCallback, hd, NATSEventBus.redelivered]
    | returns t res =>
      cases res <;>
        simp [NATSEventBus.subscribeCallback, hd, NATSEventBus.redelivered]

/-! ## C6 — undecodable payloads -/

/-- Counterexample for C6: a payload that does not decode into an Envelope
is negatively acknowledged (`msg.Nak()`), and a nak'd message is
redelivered by the broker — the claim that such a message is not scheduled
for redelivery is false. -/
theorem decode_failure_nak_redelivered_cex :
    decodeEvent (Json.str "not an event") = none
    ∧ NATSEventBus.subscribeCallback (Json.str "not an event")
        (NATSEventBus.HandlerBehavior.returns 0 none) = NATSEventBus.MsgAction.nak
    ∧ NATSEventBus.redelivered NATSEventBus.MsgAction.nak = true := ⟨rfl, rfl, rfl⟩

/-- C6 (amended): a payload that fails to decode aborts that handle attempt
(the handler is never consulted: the action is independent of the handler's
behavior) and is nak'd — scheduled for redelivery — exactly like a handler
failure, which is also nak'd. -/
theorem decode_failure_nak_like_handler_failure :
    (∀ (data : Json) (h : NATSEventBus.HandlerBehavior),
      decodeEvent data = none →
      NATSEventBus.subscribeCallback data h = NATSEventBus.MsgAction.nak)
    ∧ (∀ (data : Json) (ev : Event) (t : Int) (e : GoError),
      decodeEvent data = some ev →
      NATSEventBus.subscribeCallback data
          (NATSEventBus.HandlerBehavior.returns t (some e)) = NATSEventBus.MsgAction.nak)
    ∧ NATSEventBus.redelivered NATSEventBus.MsgAction.nak = true := by
  refine ⟨?_, ?_, rfl⟩
  · intro data h hd
    simp [NATSEventBus.subscribeCallback, hd]
  · intro data ev t e hd
    simp [NATSEventBus.subscribeCallback, hd]

/-- Witness for C6: a concrete undecodable payload is nak'd whatever the
handler would do, and a concrete decodable payload whose handler fails is
nak'd identically. -/
theorem decode_failure_nak_like_handler_failure_witness :
    NATSEventBus.subscribeCallback (Json.arr []) NATSEventBus.HandlerBehavior.diverges
      = NATSEventBus.MsgAction.nak
    ∧ NATSEventBus.subscribeCallback cMsgData
        (NATSEventBus.HandlerBehavior.returns 3 (some (GoError.other "boom")))
      = NATSEventBus.MsgAction.nak :=
  ⟨decode_failure_nak_like_handler_failure.1 (Json.arr [])
      NATSEventBus.HandlerBehavior.diverges rfl,
   decode_failure_nak_like_handler_failure.2.1 cMsgData cEvent 3
      (GoError.other "boom") rfl⟩

end Dongome
